import Mathlib

/-!
Shallow embedding of the `rusty_adams` crate (src/misc/rusty_adams): the
Scott Adams adventure-file tokenizer (`tokenizer.rs`), game model
(`game.rs`), decoder (`game/parser.rs`) and encoder (`game/writer.rs`).

Rust `i32` values are modelled as `Int`; Rust's `/` and `%` on `i32`
truncate toward zero, so they are modelled by `Int.tdiv` and `Int.tmod`.
`usize` line/column counters are modelled as `Nat`.
-/

/-- Condition (game.rs:111-133): a parameterized predicate; each of the
twenty recognized tags carries its `i32` parameter, and `Invalid` carries
the out-of-range type together with the parameter. -/
inductive Condition where
  | Parameter (n : Int)
  | ItemCarried (n : Int)
  | ItemInRoom (n : Int)
  | ItemPresent (n : Int)
  | PlayerInRoom (n : Int)
  | ItemNotInRoom (n : Int)
  | ItemNotCarried (n : Int)
  | PlayerNotInRoom (n : Int)
  | BitSet (n : Int)
  | BitClear (n : Int)
  | InventoryNotEmpty (n : Int)
  | InventoryEmpty (n : Int)
  | ItemNotPresent (n : Int)
  | ItemInGame (n : Int)
  | ItemNotInGame (n : Int)
  | CounterLE (n : Int)
  | CounterGE (n : Int)
  | ItemMoved (n : Int)
  | ItemNotMoved (n : Int)
  | CounterEQ (n : Int)
  | Invalid (typ : Int) (n : Int)
deriving DecidableEq

/-- Condition::from_i32 (game.rs:137-162): `let param = num / 20; match num % 20`,
with Rust truncated division/remainder. -/
def Condition.from_i32 (num : Int) : Condition :=
  if num.tmod 20 = 0 then .Parameter (num.tdiv 20)
  else if num.tmod 20 = 1 then .ItemCarried (num.tdiv 20)
  else if num.tmod 20 = 2 then .ItemInRoom (num.tdiv 20)
  else if num.tmod 20 = 3 then .ItemPresent (num.tdiv 20)
  else if num.tmod 20 = 4 then .PlayerInRoom (num.tdiv 20)
  else if num.tmod 20 = 5 then .ItemNotInRoom (num.tdiv 20)
  else if num.tmod 20 = 6 then .ItemNotCarried (num.tdiv 20)
  else if num.tmod 20 = 7 then .PlayerNotInRoom (num.tdiv 20)
  else if num.tmod 20 = 8 then .BitSet (num.tdiv 20)
  else if num.tmod 20 = 9 then .BitClear (num.tdiv 20)
  else if num.tmod 20 = 10 then .InventoryNotEmpty (num.tdiv 20)
  else if num.tmod 20 = 11 then .InventoryEmpty (num.tdiv 20)
  else if num.tmod 20 = 12 then .ItemNotPresent (num.tdiv 20)
  else if num.tmod 20 = 13 then .ItemInGame (num.tdiv 20)
  else if num.tmod 20 = 14 then .ItemNotInGame (num.tdiv 20)
  else if num.tmod 20 = 15 then .CounterLE (num.tdiv 20)
  else if num.tmod 20 = 16 then .CounterGE (num.tdiv 20)
  else if num.tmod 20 = 17 then .ItemMoved (num.tdiv 20)
  else if num.tmod 20 = 18 then .ItemNotMoved (num.tdiv 20)
  else if num.tmod 20 = 19 then .CounterEQ (num.tdiv 20)
  else .Invalid (num.tmod 20) (num.tdiv 20)

/-- Condition::to_i32 (game.rs:165-189): each tag re-packs as `tag + param * 20`;
`Invalid(typ, n)` re-packs as `typ + n * 20`. -/
def Condition.to_i32 : Condition → Int
  | .Parameter n => 0 + n * 20
  | .ItemCarried n => 1 + n * 20
  | .ItemInRoom n => 2 + n * 20
  | .ItemPresent n => 3 + n * 20
  | .PlayerInRoom n => 4 + n * 20
  | .ItemNotInRoom n => 5 + n * 20
  | .ItemNotCarried n => 6 + n * 20
  | .PlayerNotInRoom n => 7 + n * 20
  | .BitSet n => 8 + n * 20
  | .BitClear n => 9 + n * 20
  | .InventoryNotEmpty n => 10 + n * 20
  | .InventoryEmpty n => 11 + n * 20
  | .ItemNotPresent n => 12 + n * 20
  | .ItemInGame n => 13 + n * 20
  | .ItemNotInGame n => 14 + n * 20
  | .CounterLE n => 15 + n * 20
  | .CounterGE n => 16 + n * 20
  | .ItemMoved n => 17 + n * 20
  | .ItemNotMoved n => 18 + n * 20
  | .CounterEQ n => 19 + n * 20
  | .Invalid typ n => typ + n * 20

/-- ActionType (game.rs:195-235): one of the four per-action sub-actions.
`RemoveItem true` is the source's `RemoveItem(true)` = RemoveItem2; likewise
`DescribeRoom true` = DescribeRoom2.  `Invalid` carries the raw value. -/
inductive ActionType where
  | Nothing
  | Message (n : Int)
  | GetItem
  | DropItem
  | MovePlayer
  | RemoveItem (dup : Bool)
  | SetDarkness
  | ClearDarkness
  | SetBit
  | ClearBit
  | Death
  | PutItem
  | GameOver
  | DescribeRoom (dup : Bool)
  | Score
  | Inventory
  | SetBit0
  | ClearBit0
  | RefillLight
  | ClearScreen
  | SaveGame
  | SwapItems
  | Continue
  | TakeItem
  | MoveItemToItem
  | DecrementCounter
  | PrintCounter
  | SetCounter
  | SwapLocation
  | SelectCounter
  | AddToCounter
  | SubFromCounter
  | EchoNoun
  | EchoNounCR
  | EchoCR
  | SwapLocationN
  | Delay
  | DrawPicture
  | Invalid (n : Int)
deriving DecidableEq

/-- ActionType::from_i32 (game.rs:239-284): match on the raw value, in source
order: `0`, `1..=51`, the individual opcodes `52..=89`, `102..=150`, catch-all. -/
def ActionType.from_i32 (num : Int) : ActionType :=
  if num = 0 then .Nothing
  else if 1 ≤ num ∧ num ≤ 51 then .Message (num - 1)
  else if num = 52 then .GetItem
  else if num = 53 then .DropItem
  else if num = 54 then .MovePlayer
  else if num = 55 then .RemoveItem false
  else if num = 56 then .SetDarkness
  else if num = 57 then .ClearDarkness
  else if num = 58 then .SetBit
  else if num = 59 then .RemoveItem true
  else if num = 60 then .ClearBit
  else if num = 61 then .Death
  else if num = 62 then .PutItem
  else if num = 63 then .GameOver
  else if num = 64 then .DescribeRoom false
  else if num = 65 then .Score
  else if num = 66 then .Inventory
  else if num = 67 then .SetBit0
  else if num = 68 then .ClearBit0
  else if num = 69 then .RefillLight
  else if num = 70 then .ClearScreen
  else if num = 71 then .SaveGame
  else if num = 72 then .SwapItems
  else if num = 73 then .Continue
  else if num = 74 then .TakeItem
  else if num = 75 then .MoveItemToItem
  else if num = 76 then .DescribeRoom true
  else if num = 77 then .DecrementCounter
  else if num = 78 then .PrintCounter
  else if num = 79 then .SetCounter
  else if num = 80 then .SwapLocation
  else if num = 81 then .SelectCounter
  else if num = 82 then .AddToCounter
  else if num = 83 then .SubFromCounter
  else if num = 84 then .EchoNoun
  else if num = 85 then .EchoNounCR
  else if num = 86 then .EchoCR
  else if num = 87 then .SwapLocationN
  else if num = 88 then .Delay
  else if num = 89 then .DrawPicture
  else if 102 ≤ num ∧ num ≤ 150 then .Message (num - 51)
  else .Invalid num

/-- ActionType::to_i32 (game.rs:287-335).  `Message` re-packs `0..=50` as
`num + 1` and `51..=99` as `num + 51`, anything else as 0 (source comment:
"doesn't happen"); `Invalid(num)` re-packs as `num` itself. -/
def ActionType.to_i32 : ActionType → Int
  | .Nothing => 0
  | .Message num =>
      if 0 ≤ num ∧ num ≤ 50 then num + 1
      else if 51 ≤ num ∧ num ≤ 99 then num + 51
      else 0
  | .GetItem => 52
  | .DropItem => 53
  | .MovePlayer => 54
  | .RemoveItem dup => if !dup then 55 else 59
  | .SetDarkness => 56
  | .ClearDarkness => 57
  | .SetBit => 58
  | .ClearBit => 60
  | .Death => 61
  | .PutItem => 62
  | .GameOver => 63
  | .DescribeRoom dup => if !dup then 64 else 76
  | .Score => 65
  | .Inventory => 66
  | .SetBit0 => 67
  | .ClearBit0 => 68
  | .RefillLight => 69
  | .ClearScreen => 70
  | .SaveGame => 71
  | .SwapItems => 72
  | .Continue => 73
  | .TakeItem => 74
  | .MoveItemToItem => 75
  | .DecrementCounter => 77
  | .PrintCounter => 78
  | .SetCounter => 79
  | .SwapLocation => 80
  | .SelectCounter => 81
  | .AddToCounter => 82
  | .SubFromCounter => 83
  | .EchoNoun => 84
  | .EchoNounCR => 85
  | .EchoCR => 86
  | .SwapLocationN => 87
  | .Delay => 88
  | .DrawPicture => 89
  | .Invalid num => num

/-- Modelled from the spec (§3 Condition): the condition with the given type
tag and parameter, i.e. the pair "(type, parameter)" that the packing law in
§8 speaks about, realized in the game model's `Condition` type. -/
def condMk (t p : Int) : Condition :=
  if t = 0 then .Parameter p
  else if t = 1 then .ItemCarried p
  else if t = 2 then .ItemInRoom p
  else if t = 3 then .ItemPresent p
  else if t = 4 then .PlayerInRoom p
  else if t = 5 then .ItemNotInRoom p
  else if t = 6 then .ItemNotCarried p
  else if t = 7 then .PlayerNotInRoom p
  else if t = 8 then .BitSet p
  else if t = 9 then .BitClear p
  else if t = 10 then .InventoryNotEmpty p
  else if t = 11 then .InventoryEmpty p
  else if t = 12 then .ItemNotPresent p
  else if t = 13 then .ItemInGame p
  else if t = 14 then .ItemNotInGame p
  else if t = 15 then .CounterLE p
  else if t = 16 then .CounterGE p
  else if t = 17 then .ItemMoved p
  else if t = 18 then .ItemNotMoved p
  else if t = 19 then .CounterEQ p
  else .Invalid t p

/-- Location (tokenizer.rs:17-20): 1-based line and column (`usize`) within
the original game file. -/
structure Location where
  line : Nat
  col : Nat
deriving DecidableEq

/-- Token (tokenizer.rs:24-27): `Token::Int(i32, Location)` or
`Token::Str(String, Location)`. -/
inductive Token where
  | int (val : Int) (loc : Location)
  | str (s : String) (loc : Location)
deriving DecidableEq

/-- TokenError (tokenizer.rs:169-172): a tokenization error with its
location and message. -/
structure TokenError where
  loc : Location
  msg : String
deriving DecidableEq

/-- TokenError's Display impl (tokenizer.rs:176-178): `"{line}:{col}: {msg}"`. -/
def TokenError.display (e : TokenError) : String :=
  toString e.loc.line ++ ":" ++ toString e.loc.col ++ ": " ++ e.msg

/-- Stream::next_int (tokenizer.rs:143-150): `pop_front` always consumes the
head token, then the match decides ok / type mismatch / end of stream.  The
mutated stream is returned as the second component. -/
def next_int : List Token → (Except TokenError Int) × List Token
  | [] => (.error ⟨⟨0, 0⟩, "Unexpected end of stream"⟩, [])
  | Token.int v _ :: rest => (.ok v, rest)
  | Token.str _ l :: rest => (.error ⟨l, "Expected an integer, found a string"⟩, rest)

/-- Stream::next_str (tokenizer.rs:153-160): symmetric to `next_int`. -/
def next_str : List Token → (Except TokenError String) × List Token
  | [] => (.error ⟨⟨0, 0⟩, "Unexpected end of stream"⟩, [])
  | Token.str s _ :: rest => (.ok s, rest)
  | Token.int _ l :: rest => (.error ⟨l, "Expected a string, found an integer"⟩, rest)

/-- Stream::done (tokenizer.rs:138-140). -/
def streamDone (ts : List Token) : Bool := ts.isEmpty

/-- ParseError (parser.rs:266-268). -/
structure ParseError where
  msg : String
deriving DecidableEq

/-- _read_int (parser.rs:239-244): wrap a `next_int` failure into a
`ParseError` via the Display rendering. -/
def _read_int (ts : List Token) : Except ParseError (Int × List Token) :=
  match next_int ts with
  | (.ok v, rest) => .ok (v, rest)
  | (.error e, _) => .error ⟨e.display⟩

/-- _read_str (parser.rs:247-252). -/
def _read_str (ts : List Token) : Except ParseError (String × List Token) :=
  match next_str ts with
  | (.ok s, rest) => .ok (s, rest)
  | (.error e, _) => .error ⟨e.display⟩

/-- parse_condition (parser.rs:96-122): read one integer and match
`num % 20` (truncated), with `param = num / 20`; a remainder outside 0-19
(possible for negative `num`) is a `ParseError` whose message is rendered by
the source's `format!("Invalid condition (type {}, parameter {}", ..)`
(the closing parenthesis is missing in the source format string). -/
def parse_condition (ts : List Token) : Except ParseError (Condition × List Token) := do
  let (num, ts) ← _read_int ts
  if num.tmod 20 = 0 then .ok (.Parameter (num.tdiv 20), ts)
  else if num.tmod 20 = 1 then .ok (.ItemCarried (num.tdiv 20), ts)
  else if num.tmod 20 = 2 then .ok (.ItemInRoom (num.tdiv 20), ts)
  else if num.tmod 20 = 3 then .ok (.ItemPresent (num.tdiv 20), ts)
  else if num.tmod 20 = 4 then .ok (.PlayerInRoom (num.tdiv 20), ts)
  else if num.tmod 20 = 5 then .ok (.ItemNotInRoom (num.tdiv 20), ts)
  else if num.tmod 20 = 6 then .ok (.ItemNotCarried (num.tdiv 20), ts)
  else if num.tmod 20 = 7 then .ok (.PlayerNotInRoom (num.tdiv 20), ts)
  else if num.tmod 20 = 8 then .ok (.BitSet (num.tdiv 20), ts)
  else if num.tmod 20 = 9 then .ok (.BitClear (num.tdiv 20), ts)
  else if num.tmod 20 = 10 then .ok (.InventoryNotEmpty (num.tdiv 20), ts)
  else if num.tmod 20 = 11 then .ok (.InventoryEmpty (num.tdiv 20), ts)
  else if num.tmod 20 = 12 then .ok (.ItemNotPresent (num.tdiv 20), ts)
  else if num.tmod 20 = 13 then .ok (.ItemInGame (num.tdiv 20), ts)
  else if num.tmod 20 = 14 then .ok (.ItemNotInGame (num.tdiv 20), ts)
  else if num.tmod 20 = 15 then .ok (.CounterLE (num.tdiv 20), ts)
  else if num.tmod 20 = 16 then .ok (.CounterGE (num.tdiv 20), ts)
  else if num.tmod 20 = 17 then .ok (.ItemMoved (num.tdiv 20), ts)
  else if num.tmod 20 = 18 then .ok (.ItemNotMoved (num.tdiv 20), ts)
  else if num.tmod 20 = 19 then .ok (.CounterEQ (num.tdiv 20), ts)
  else .error ⟨"Invalid condition (type " ++ toString (num.tmod 20) ++
    ", parameter " ++ toString (num.tdiv 20)⟩

/-- Header (game.rs:67-92): 12 signed integers in fixed order. -/
structure Header where
  unknown0 : Int
  num_items : Int
  num_actions : Int
  num_words : Int
  num_rooms : Int
  max_inventory : Int
  starting_room : Int
  num_treasures : Int
  word_length : Int
  light_duration : Int
  num_messages : Int
  treasure_room : Int
deriving DecidableEq

/-- parse_header (parser.rs:34-49): read 12 integers; the item, action,
word, room and message counts are incremented by 1 ("adjust for option
base 0"), the other seven are passed through. -/
def parse_header (ts : List Token) : Except ParseError (Header × List Token) := do
  let (unknown0, ts) ← _read_int ts
  let (num_items, ts) ← _read_int ts
  let (num_actions, ts) ← _read_int ts
  let (num_words, ts) ← _read_int ts
  let (num_rooms, ts) ← _read_int ts
  let (max_inventory, ts) ← _read_int ts
  let (starting_room, ts) ← _read_int ts
  let (num_treasures, ts) ← _read_int ts
  let (word_length, ts) ← _read_int ts
  let (light_duration, ts) ← _read_int ts
  let (num_messages, ts) ← _read_int ts
  let (treasure_room, ts) ← _read_int ts
  .ok (⟨unknown0, num_items + 1, num_actions + 1, num_words + 1, num_rooms + 1,
    max_inventory, starting_room, num_treasures, word_length, light_duration,
    num_messages + 1, treasure_room⟩, ts)

/-- The byte output of `writeln!(writer, " {} ", v)`: one integer per line,
with a single leading and trailing space (writer.rs, used for every integer
field). -/
def intLine (v : Int) : String := " " ++ toString v ++ " \n"

/-- write_header (writer.rs:28-42): write the 12 integers back, with the
five counts decremented by 1 and the other seven passed through. -/
def write_header (header : Header) : String :=
  intLine header.unknown0 ++ intLine (header.num_items - 1) ++
  intLine (header.num_actions - 1) ++ intLine (header.num_words - 1) ++
  intLine (header.num_rooms - 1) ++ intLine header.max_inventory ++
  intLine header.starting_room ++ intLine header.num_treasures ++
  intLine header.word_length ++ intLine header.light_duration ++
  intLine (header.num_messages - 1) ++ intLine header.treasure_room

/-- The unpacking arithmetic of parse_action (parser.rs:66-68 for the
verb/noun integer: `verb_index = num / 150`, `noun_index = num % 150`, and
parser.rs:79-83 for the two packed action-type integers: `num / 150`,
`num % 150`), with Rust truncation. -/
def decode_action_pair (num : Int) : Int × Int := (num.tdiv 150, num.tmod 150)

/-- The packing arithmetic of write_action (writer.rs:55
`verb_index * 150 + noun_index` and writer.rs:61-64 `a1 * 150 + a2`). -/
def encode_action_pair (first second : Int) : Int := first * 150 + second

/-- State (tokenizer.rs:38-44): the five states of the tokenizer's finite
state machine. -/
inductive State where
  | Init
  | Sign
  | Num
  | Quote
  | Escape
deriving DecidableEq

/-- Rust's `char::is_ascii_whitespace`: space, tab, newline, form feed,
carriage return. -/
def isAsciiWhitespace (ch : Char) : Bool :=
  ch = ' ' || ch = '\t' || ch = '\n' || ch = '\x0C' || ch = '\r'

/-- Rust's `char::is_ascii_digit`. -/
def isAsciiDigit (ch : Char) : Bool :=
  '0' ≤ ch && ch ≤ '9'

/-- Value of a nonempty all-digit character sequence (used to model Rust's
`str::parse::<i32>` on the accumulator, which only ever holds an optional
leading minus followed by digits). -/
def digitsVal (cs : List Char) : Option Nat :=
  if cs.isEmpty then none
  else cs.foldl (fun acc ch =>
    match acc with
    | none => none
    | some a => if isAsciiDigit ch then some (a * 10 + (ch.toNat - 48)) else none)
    (some 0)

/-- Rust's `str::parse::<i32>` (tokenizer.rs:101) on the accumulator: an
optional leading `-` followed by at least one digit, rejected when the value
overflows the `i32` range. -/
def parse_i32 (s : String) : Option Int :=
  match s.data with
  | '-' :: cs =>
      (digitsVal cs).bind fun m =>
        if (m : Int) ≤ 2147483648 then some (-(m : Int)) else none
  | cs =>
      (digitsVal cs).bind fun m =>
        if (m : Int) ≤ 2147483647 then some (m : Int) else none

/-- The position update at the top of the tokenizer loop (tokenizer.rs:60-65):
a newline increments the line and resets the column to 1, any other byte
increments the column. -/
def advanceLoc (loc : Location) (ch : Char) : Location :=
  if ch = '\n' then ⟨loc.line + 1, 1⟩ else ⟨loc.line, loc.col + 1⟩

/-- The full mutable state of the loop in Stream::new (tokenizer.rs:50-57):
FSM state, accumulator, tokens emitted so far, `current_loc` and
`token_loc`. -/
structure TokState where
  state : State
  acc : String
  tokens : List Token
  cur : Location
  tokLoc : Location
deriving DecidableEq

/-- One iteration of the loop in Stream::new (tokenizer.rs:58-133): first
`current_loc` is advanced past the byte, then the FSM dispatches on the
state.  Note a token's `token_loc` is assigned *after* the advance. -/
def tokStep (st : TokState) (ch : Char) : Except TokenError TokState :=
  let cur := advanceLoc st.cur ch
  match st.state with
  | .Init =>
      if isAsciiWhitespace ch then .ok { st with cur := cur }
      else if ch = '-' then
        .ok { st with state := .Sign, acc := st.acc.push ch, cur := cur, tokLoc := cur }
      else if isAsciiDigit ch then
        .ok { st with state := .Num, acc := st.acc.push ch, cur := cur, tokLoc := cur }
      else if ch = '\"' then
        .ok { st with state := .Quote, cur := cur, tokLoc := cur }
      else .error ⟨cur, "Unexpected character \x27" ++ toString ch ++ "\x27"⟩
  | .Sign =>
      if isAsciiDigit ch then
        .ok { st with state := .Num, acc := st.acc.push ch, cur := cur }
      else .error ⟨cur, "Unexpected character \x27" ++ toString ch ++ "\x27 in integer"⟩
  | .Num =>
      if isAsciiWhitespace ch then
        match parse_i32 st.acc with
        | some val =>
            .ok { st with
              state := .Init, acc := "",
              tokens := st.tokens ++ [Token.int val st.tokLoc], cur := cur }
        | none => .error ⟨cur, "Malformed integer"⟩
      else if isAsciiDigit ch then .ok { st with acc := st.acc.push ch, cur := cur }
      else .error ⟨cur, "Unexpected character \x27" ++ toString ch ++ "\x27 in integer"⟩
  | .Quote =>
      if ch = '\\' then .ok { st with state := .Escape, cur := cur }
      else if ch = '\"' then
        .ok { st with
          state := .Init, acc := "",
          tokens := st.tokens ++ [Token.str st.acc st.tokLoc], cur := cur }
      else .ok { st with acc := st.acc.push ch, cur := cur }
  | .Escape => .ok { st with state := .Quote, acc := st.acc.push ch, cur := cur }

/-- The initial loop state of Stream::new (tokenizer.rs:51-56). -/
def tokInit : TokState := ⟨.Init, "", [], ⟨1, 1⟩, ⟨1, 1⟩⟩

/-- The whole loop of Stream::new (tokenizer.rs:58-133), as a monadic fold
of `tokStep` over the input bytes. -/
def tokRun (data : List Char) : Except TokenError TokState :=
  data.foldlM tokStep tokInit

/-- Stream::new (tokenizer.rs:50-135): on loop completion the accumulated
token list is returned, whatever state the machine ended in. -/
def Stream.new (data : List Char) : Except TokenError (List Token) :=
  (tokRun data).map TokState.tokens

/-- Shift a location one column to the right. -/
def bumpLoc (l : Location) : Location := ⟨l.line, l.col + 1⟩

/-- Shift a token's recorded location one column to the right. -/
def bumpTok : Token → Token
  | .int v l => .int v (bumpLoc l)
  | .str s l => .str s (bumpLoc l)

/-- Modelled from the spec (§4.1, §3 Location): the same five-state FSM, but
"a token's `Location` is the line/column of its first character", i.e.
`token_loc` is recorded as the position of the byte being read *before* the
position counter advances past it (and a lexical error is likewise reported
at the offending byte's own position). -/
def specTokStep (st : TokState) (ch : Char) : Except TokenError TokState :=
  let cur := advanceLoc st.cur ch
  match st.state with
  | .Init =>
      if isAsciiWhitespace ch then .ok { st with cur := cur }
      else if ch = '-' then
        .ok { st with state := .Sign, acc := st.acc.push ch, cur := cur, tokLoc := st.cur }
      else if isAsciiDigit ch then
        .ok { st with state := .Num, acc := st.acc.push ch, cur := cur, tokLoc := st.cur }
      else if ch = '\"' then
        .ok { st with state := .Quote, cur := cur, tokLoc := st.cur }
      else .error ⟨st.cur, "Unexpected character \x27" ++ toString ch ++ "\x27"⟩
  | .Sign =>
      if isAsciiDigit ch then
        .ok { st with state := .Num, acc := st.acc.push ch, cur := cur }
      else .error ⟨st.cur, "Unexpected character \x27" ++ toString ch ++ "\x27 in integer"⟩
  | .Num =>
      if isAsciiWhitespace ch then
        match parse_i32 st.acc with
        | some val =>
            .ok { st with
              state := .Init, acc := "",
              tokens := st.tokens ++ [Token.int val st.tokLoc], cur := cur }
        | none => .error ⟨st.cur, "Malformed integer"⟩
      else if isAsciiDigit ch then .ok { st with acc := st.acc.push ch, cur := cur }
      else .error ⟨st.cur, "Unexpected character \x27" ++ toString ch ++ "\x27 in integer"⟩
  | .Quote =>
      if ch = '\\' then .ok { st with state := .Escape, cur := cur }
      else if ch = '\"' then
        .ok { st with
          state := .Init, acc := "",
          tokens := st.tokens ++ [Token.str st.acc st.tokLoc], cur := cur }
      else .ok { st with acc := st.acc.push ch, cur := cur }
  | .Escape => .ok { st with state := .Quote, acc := st.acc.push ch, cur := cur }

/-- The spec-side tokenizer loop. -/
def specTokRun (data : List Char) : Except TokenError TokState :=
  data.foldlM specTokStep tokInit

/-- Coupling between a source-tokenizer state and a spec-tokenizer state:
same FSM state, accumulator and cursor; every emitted token's location is the
spec one shifted right by one column; and (except between tokens, where it is
stale and unused) the pending token start is likewise shifted by one. -/
def TokRel (s s' : TokState) : Prop :=
  s.state = s'.state ∧ s.acc = s'.acc ∧ s.cur = s'.cur ∧
  s.tokens = s'.tokens.map bumpTok ∧
  (s.state ≠ State.Init → s.tokLoc = bumpLoc s'.tokLoc)

/-- Action (game.rs:96-107); named `GameAction` here because Lean's root
namespace already has an `Action`. -/
structure GameAction where
  verb_index : Int
  noun_index : Int
  conditions : List Condition
  actions : List ActionType
  comment : Option String
deriving DecidableEq

/-- Word (game.rs:340-345). -/
structure Word where
  word : String
  is_synonym : Bool
deriving DecidableEq

/-- Room (game.rs:349-356). -/
structure Room where
  description : String
  is_literal : Bool
  exits : List Int
deriving DecidableEq

/-- Item (game.rs:360-369). -/
structure Item where
  description : String
  location : Int
  is_treasure : Bool
  autograb : Option String
deriving DecidableEq

/-- Footer (game.rs:373-380). -/
structure Footer where
  version : Int
  adventure : Int
  magic : Int
deriving DecidableEq

/-- Game (game.rs:23-32). -/
structure Game where
  header : Header
  actions : List GameAction
  verbs : List Word
  nouns : List Word
  rooms : List Room
  messages : List String
  items : List Item
  footer : Footer
deriving DecidableEq

/-- Rust's `str::starts_with("*")` (parser.rs:200, 258), modelled on the
underlying character list. -/
def startsWithStar (s : String) : Bool :=
  match s.data with
  | '*' :: _ => true
  | _ => false

/-- Rust's `str::strip_prefix("*").unwrap()` (parser.rs:260) on a string
known to start with `*`: drop the first character. -/
def stripStar (s : String) : String := String.mk (s.data.drop 1)

/-- _read_word (parser.rs:256-263): read a string; a leading `*` is stripped
and reported as the boolean. -/
def _read_word (ts : List Token) : Except ParseError ((String × Bool) × List Token) := do
  let (word, ts) ← _read_str ts
  if startsWithStar word then .ok ((stripStar word, true), ts)
  else .ok ((word, false), ts)

/-- The count-driven `for _ in 0..n` reading loop shared by
parse_actions/parse_words/parse_rooms/parse_messages/parse_items
(parser.rs:52-58, 126-142, 145-151, 171-177, 180-186); a nonpositive `i32`
count runs zero iterations. -/
def parseCount {α : Type} (f : List Token → Except ParseError (α × List Token)) :
    Nat → List Token → Except ParseError (List α × List Token)
  | 0, ts => .ok ([], ts)
  | n + 1, ts => do
      let (x, ts) ← f ts
      let (xs, ts) ← parseCount f n ts
      .ok (x :: xs, ts)

/-- parse_action (parser.rs:65-92): the packed verb/noun integer, five
conditions, and two packed action-type integers.  The source stores the two
unpacked halves of each packed integer straight into the `[ActionType; 4]`
array (`actions[i*2] = num / 150`), which does not type-check against
game.rs; modelled from the spec (§3 ActionType, §4.3): each unpacked half is
converted with `ActionType::from_i32`. -/
def parse_action (ts : List Token) : Except ParseError (GameAction × List Token) := do
  let (num, ts) ← _read_int ts
  let (c1, ts) ← parse_condition ts
  let (c2, ts) ← parse_condition ts
  let (c3, ts) ← parse_condition ts
  let (c4, ts) ← parse_condition ts
  let (c5, ts) ← parse_condition ts
  let (p1, ts) ← _read_int ts
  let (p2, ts) ← _read_int ts
  .ok (⟨num.tdiv 150, num.tmod 150, [c1, c2, c3, c4, c5],
    [ActionType.from_i32 (p1.tdiv 150), ActionType.from_i32 (p1.tmod 150),
      ActionType.from_i32 (p2.tdiv 150), ActionType.from_i32 (p2.tmod 150)],
    none⟩, ts)

/-- parse_actions (parser.rs:52-58). -/
def parse_actions (ts : List Token) (num_actions : Int) :
    Except ParseError (List GameAction × List Token) :=
  parseCount parse_action num_actions.toNat ts

/-- One iteration of the parse_words loop (parser.rs:129-140): one verb then
one noun. -/
def parse_word_pair (ts : List Token) : Except ParseError ((Word × Word) × List Token) := do
  let (verb, ts) ← _read_word ts
  let (noun, ts) ← _read_word ts
  .ok ((⟨verb.1, verb.2⟩, ⟨noun.1, noun.2⟩), ts)

/-- parse_words (parser.rs:126-142): `num_words` interleaved verb/noun
pairs, returned as the two separate sequences. -/
def parse_words (ts : List Token) (num_words : Int) :
    Except ParseError ((List Word × List Word) × List Token) := do
  let (pairs, ts) ← parseCount parse_word_pair num_words.toNat ts
  .ok ((pairs.map Prod.fst, pairs.map Prod.snd), ts)

/-- parse_room (parser.rs:156-168): six exits then the description, whose
leading `*` marks a literal description and is stripped. -/
def parse_room (ts : List Token) : Except ParseError (Room × List Token) := do
  let (e1, ts) ← _read_int ts
  let (e2, ts) ← _read_int ts
  let (e3, ts) ← _read_int ts
  let (e4, ts) ← _read_int ts
  let (e5, ts) ← _read_int ts
  let (e6, ts) ← _read_int ts
  let (desc, ts) ← _read_word ts
  .ok (⟨desc.1, desc.2, [e1, e2, e3, e4, e5, e6]⟩, ts)

/-- parse_rooms (parser.rs:145-151). -/
def parse_rooms (ts : List Token) (num_rooms : Int) :
    Except ParseError (List Room × List Token) :=
  parseCount parse_room num_rooms.toNat ts

/-- parse_messages (parser.rs:171-177). -/
def parse_messages (ts : List Token) (num_messages : Int) :
    Except ParseError (List String × List Token) :=
  parseCount _read_str num_messages.toNat ts

/-- The autograb extraction of parse_item (parser.rs:202-208), a match of
the anchored regex `^(.*)/(.*)/$` with greedy groups: a string ending in `/`
and containing at least one more `/` splits at the last interior `/` into
the new description and the autograb name. -/
def autograb_split (s : String) : Option (String × String) :=
  match s.data.reverse with
  | '/' :: rest =>
      if rest.contains '/' then
        let grabRev := rest.takeWhile (fun ch => ch != '/')
        let descRev := rest.drop (grabRev.length + 1)
        some (String.mk descRev.reverse, String.mk grabRev.reverse)
      else none
  | _ => none

/-- parse_item (parser.rs:196-215): description then location; a leading `*`
marks a treasure and is **not** stripped; a trailing `/XXX/` is stripped into
the autograb name. -/
def parse_item (ts : List Token) : Except ParseError (Item × List Token) := do
  let (description, ts) ← _read_str ts
  let (location, ts) ← _read_int ts
  match autograb_split description with
  | some (d, g) => .ok (⟨d, location, startsWithStar description, some g⟩, ts)
  | none => .ok (⟨description, location, startsWithStar description, none⟩, ts)

/-- parse_items (parser.rs:180-186). -/
def parse_items (ts : List Token) (num_items : Int) :
    Except ParseError (List Item × List Token) :=
  parseCount parse_item num_items.toNat ts

/-- parse_comments (parser.rs:219-227): one string per action, in order; a
nonempty string becomes that action's comment, an empty one leaves `None`. -/
def parse_comments (ts : List Token) (actions : List GameAction) :
    Except ParseError (List GameAction × List Token) :=
  match actions with
  | [] => .ok ([], ts)
  | a :: rest => do
      let (comment, ts) ← _read_str ts
      let a' := if comment.data.isEmpty then a else { a with comment := some comment }
      let (rest', ts) ← parse_comments ts rest
      .ok (a' :: rest', ts)

/-- parse_footer (parser.rs:230-236). -/
def parse_footer (ts : List Token) : Except ParseError (Footer × List Token) := do
  let (version, ts) ← _read_int ts
  let (adventure, ts) ← _read_int ts
  let (magic, ts) ← _read_int ts
  .ok (⟨version, adventure, magic⟩, ts)

/-- parse_game (parser.rs:11-31): the fixed section order header → actions →
words → rooms → messages → items → comments → footer. -/
def parse_game (ts : List Token) : Except ParseError (Game × List Token) := do
  let (header, ts) ← parse_header ts
  let (actions, ts) ← parse_actions ts header.num_actions
  let (words, ts) ← parse_words ts header.num_words
  let (rooms, ts) ← parse_rooms ts header.num_rooms
  let (messages, ts) ← parse_messages ts header.num_messages
  let (items, ts) ← parse_items ts header.num_items
  let (actions, ts) ← parse_comments ts actions
  let (footer, ts) ← parse_footer ts
  .ok (⟨header, actions, words.1, words.2, rooms, messages, items, footer⟩, ts)

/-- The byte output of `writeln!(writer, r#""{}""#, s)`: a quoted string on
its own line (writer.rs, used for words, room descriptions, messages and
comments). -/
def strLine (s : String) : String := "\"" ++ s ++ "\"\n"

/-- write_condition, from write_action (writer.rs:57
`cond.cond_type + 20 * cond.value`): the source accesses fields of a
struct-shaped Condition that game.rs does not define (it defines the enum),
so this is modelled from the spec (§4.4 "condition `type + 20*parameter`"),
which is exactly `Condition::to_i32`. -/
def write_condition (c : Condition) : String := intLine c.to_i32

/-- write_action (writer.rs:54-67): the packed verb/noun integer, the five
conditions, then the two re-packed action-type integers.  The source
re-packs via `if let ActionType::Generic(a1) = ...`, a variant game.rs does
not define; modelled from the spec (§4.4 "action `first*150 + second`" with
§3's raw values): each half contributes `ActionType::to_i32`.  A parsed
action always has exactly four sub-actions. -/
def write_action (a : GameAction) : String :=
  intLine (a.verb_index * 150 + a.noun_index) ++
  String.join (a.conditions.map write_condition) ++
  (match a.actions with
   | [a1, a2, a3, a4] =>
      intLine (a1.to_i32 * 150 + a2.to_i32) ++ intLine (a3.to_i32 * 150 + a4.to_i32)
   | _ => "")

/-- write_word (writer.rs:80-86): re-add the stripped `*` for synonyms. -/
def write_word (w : Word) : String :=
  if w.is_synonym then strLine ("*" ++ w.word) else strLine w.word

/-- write_words (writer.rs:70-77): re-interleave verbs and nouns. -/
def write_words (verbs nouns : List Word) : String :=
  String.join ((verbs.zip nouns).map fun p => write_word p.1 ++ write_word p.2)

/-- write_room (writer.rs:97-105): six exits then the description, re-adding
the stripped `*` for literal descriptions. -/
def write_room (r : Room) : String :=
  String.join (r.exits.map intLine) ++
  (if r.is_literal then strLine ("*" ++ r.description) else strLine r.description)

/-- write_item (writer.rs:121-128): re-append the stripped `/name/` autograb
suffix; `writeln!(r#""{}" {} "#, ..)` renders the quoted description, a
space, the location and a trailing space. -/
def write_item (it : Item) : String :=
  let description :=
    match it.autograb with
    | some g => it.description ++ "/" ++ g ++ "/"
    | none => it.description
  "\"" ++ description ++ "\" " ++ toString it.location ++ " \n"

/-- write_comments (writer.rs:131-139): one quoted string per action, the
empty string for `None`. -/
def write_comments (actions : List GameAction) : String :=
  String.join (actions.map fun a =>
    match a.comment with
    | some comment => strLine comment
    | none => strLine "")

/-- write_footer (writer.rs:142-147). -/
def write_footer (f : Footer) : String :=
  intLine f.version ++ intLine f.adventure ++ intLine f.magic

/-- write_game (writer.rs:15-25): the same section order as parse_game. -/
def write_game (g : Game) : String :=
  write_header g.header ++
  String.join (g.actions.map write_action) ++
  write_words g.verbs g.nouns ++
  String.join (g.rooms.map write_room) ++
  String.join (g.messages.map strLine) ++
  String.join (g.items.map write_item) ++
  write_comments g.actions ++
  write_footer g.footer

/-- load_game minus the file I/O (lib.rs:10-26) composed with write_game:
tokenize the bytes, decode the token stream, re-encode the game. -/
def load_then_write (data : List Char) : Option String :=
  match Stream.new data with
  | .error _ => none
  | .ok toks =>
      match parse_game toks with
      | .error _ => none
      | .ok (g, _) => some (write_game g)

/-- A small game file in the writer's canonical layout: one action (with a
comment slot), one verb/noun pair, one room, one message, one treasure item
with an autograb suffix, and the footer. -/
def sampleGameFile : String :=
  " 123 \n 0 \n 0 \n 0 \n 0 \n 6 \n 0 \n 1 \n 3 \n -1 \n 0 \n 2 \n" ++
  " 151 \n 0 \n 23 \n 45 \n 102 \n 19 \n 7801 \n 15449 \n" ++
  "\"GET\"\n\"*LAM\"\n" ++
  " 1 \n 2 \n 3 \n 4 \n 5 \n 0 \n\"*DARK CAVE\"\n" ++
  "\"HELLO WORLD\"\n" ++
  "\"*LAMP/LAM/\" 1 \n" ++
  "\"\"\n" ++
  " 1 \n 4 \n 1234 \n"

lemma from_i32_eq_condMk (n : Int) :
    Condition.from_i32 n = condMk (n.tmod 20) (n.tdiv 20) := rfl

lemma condMk_to_i32 (t p : Int) : (condMk t p).to_i32 = t + 20 * p := by
  unfold condMk
  by_cases h0 : t = 0
  · rw [if_pos h0, h0]; simp only [Condition.to_i32]; omega
  rw [if_neg h0]
  by_cases h1 : t = 1
  · rw [if_pos h1, h1]; simp only [Condition.to_i32]; omega
  rw [if_neg h1]
  by_cases h2 : t = 2
  · rw [if_pos h2, h2]; simp only [Condition.to_i32]; omega
  rw [if_neg h2]
  by_cases h3 : t = 3
  · rw [if_pos h3, h3]; simp only [Condition.to_i32]; omega
  rw [if_neg h3]
  by_cases h4 : t = 4
  · rw [if_pos h4, h4]; simp only [Condition.to_i32]; omega
  rw [if_neg h4]
  by_cases h5 : t = 5
  · rw [if_pos h5, h5]; simp only [Condition.to_i32]; omega
  rw [if_neg h5]
  by_cases h6 : t = 6
  · rw [if_pos h6, h6]; simp only [Condition.to_i32]; omega
  rw [if_neg h6]
  by_cases h7 : t = 7
  · rw [if_pos h7, h7]; simp only [Condition.to_i32]; omega
  rw [if_neg h7]
  by_cases h8 : t = 8
  · rw [if_pos h8, h8]; simp only [Condition.to_i32]; omega
  rw [if_neg h8]
  by_cases h9 : t = 9
  · rw [if_pos h9, h9]; simp only [Condition.to_i32]; omega
  rw [if_neg h9]
  by_cases h10 : t = 10
  · rw [if_pos h10, h10]; simp only [Condition.to_i32]; omega
  rw [if_neg h10]
  by_cases h11 : t = 11
  · rw [if_pos h11, h11]; simp only [Condition.to_i32]; omega
  rw [if_neg h11]
  by_cases h12 : t = 12
  · rw [if_pos h12, h12]; simp only [Condition.to_i32]; omega
  rw [if_neg h12]
  by_cases h13 : t = 13
  · rw [if_pos h13, h13]; simp only [Condition.to_i32]; omega
  rw [if_neg h13]
  by_cases h14 : t = 14
  · rw [if_pos h14, h14]; simp only [Condition.to_i32]; omega
  rw [if_neg h14]
  by_cases h15 : t = 15
  · rw [if_pos h15, h15]; simp only [Condition.to_i32]; omega
  rw [if_neg h15]
  by_cases h16 : t = 16
  · rw [if_pos h16, h16]; simp only [Condition.to_i32]; omega
  rw [if_neg h16]
  by_cases h17 : t = 17
  · rw [if_pos h17, h17]; simp only [Condition.to_i32]; omega
  rw [if_neg h17]
  by_cases h18 : t = 18
  · rw [if_pos h18, h18]; simp only [Condition.to_i32]; omega
  rw [if_neg h18]
  by_cases h19 : t = 19
  · rw [if_pos h19, h19]; simp only [Condition.to_i32]; omega
  rw [if_neg h19]
  simp only [Condition.to_i32]; omega

/-- C10: for every 32-bit integer `n`, `Condition::to_i32 (Condition::from_i32 n) = n`,
including negative `n` whose truncated remainder falls outside 0-19, because
the `Invalid` variant stores both the out-of-range type and the parameter and
re-encodes them unchanged. -/
theorem c10_condition_total_roundtrip (n : Int) :
    (Condition.from_i32 n).to_i32 = n := by
  rw [from_i32_eq_condMk, condMk_to_i32]
  have h := Int.tdiv_add_tmod n 20
  omega

lemma actionType_from_i32_invalid (n : Int)
    (hn : n < 0 ∨ (89 < n ∧ n < 102) ∨ 150 < n) :
    ActionType.from_i32 n = ActionType.Invalid n := by
  unfold ActionType.from_i32
  repeat rw [if_neg (by omega)]

/-- C8: the duplicate opcodes round-trip to their own distinct raw values:
raw 55 and 59 give the two distinguishable `RemoveItem` variants which encode
back to 55 and 59, and likewise 64 and 76 for `DescribeRoom`; every raw value
outside the recognized ranges (0-89 and 102-150) decodes to the
invalid-opcode variant, which encodes back to exactly the same raw value. -/
theorem c8_duplicate_opcodes_and_invalid_preserved :
    (ActionType.from_i32 55 = ActionType.RemoveItem false ∧
      ActionType.from_i32 59 = ActionType.RemoveItem true ∧
      ActionType.RemoveItem false ≠ ActionType.RemoveItem true ∧
      (ActionType.from_i32 55).to_i32 = 55 ∧ (ActionType.from_i32 59).to_i32 = 59) ∧
    (ActionType.from_i32 64 = ActionType.DescribeRoom false ∧
      ActionType.from_i32 76 = ActionType.DescribeRoom true ∧
      ActionType.DescribeRoom false ≠ ActionType.DescribeRoom true ∧
      (ActionType.from_i32 64).to_i32 = 64 ∧ (ActionType.from_i32 76).to_i32 = 76) ∧
    (∀ n : Int, n < 0 ∨ (89 < n ∧ n < 102) ∨ 150 < n →
      ActionType.from_i32 n = ActionType.Invalid n ∧ (ActionType.Invalid n).to_i32 = n) :=
  ⟨by decide, by decide, fun n hn => ⟨actionType_from_i32_invalid n hn, rfl⟩⟩

/-- Witness for C8's hypothesis: raw value 95 lies outside the recognized
ranges, decodes to `Invalid 95` and encodes back to 95. -/
theorem c8_witness : ActionType.from_i32 95 = ActionType.Invalid 95 ∧
    (ActionType.Invalid 95).to_i32 = 95 :=
  c8_duplicate_opcodes_and_invalid_preserved.2.2 95 (by omega)

/-- C3 counterexample: for `type = 1`, `parameter = -1` the packed value is
`-19`; Rust's truncated `%` gives `-19 % 20 = -19`, so decoding yields
`Invalid(-19, 0)` rather than the condition `(1, -1)`.  The claim fails for
negative parameters. -/
theorem c3_counterexample :
    Condition.from_i32 (1 + 20 * (-1)) = Condition.Invalid (-19) 0 ∧
    Condition.from_i32 (1 + 20 * (-1)) ≠ condMk 1 (-1) := by decide

/-- C3 (amended): for all `type ∈ [0,19]` and all `parameter ≥ 0`, decoding
the packed integer `type + 20*parameter` yields the condition
`(type, parameter)`; encoding the condition `(type, parameter)` yields
`type + 20*parameter` for every integer parameter (negative included). -/
theorem c3_amended_condition_packing_law :
    (∀ t p : Int, 0 ≤ t → t ≤ 19 → 0 ≤ p →
      Condition.from_i32 (t + 20 * p) = condMk t p) ∧
    (∀ t p : Int, (condMk t p).to_i32 = t + 20 * p) := by
  refine ⟨fun t p ht ht' hp => ?_, condMk_to_i32⟩
  have h1 : (t + 20 * p).tmod 20 = t := by
    rw [Int.tmod_eq_emod (by omega) (by norm_num), Int.add_mul_emod_self_left]
    exact Int.emod_eq_of_lt ht (by omega)
  have h2 : (t + 20 * p).tdiv 20 = p := by
    rw [Int.tdiv_eq_ediv (by omega) (by norm_num),
      Int.add_mul_ediv_left t p (by norm_num : (20:Int) ≠ 0),
      Int.ediv_eq_zero_of_lt ht (by omega)]
    omega
  rw [from_i32_eq_condMk, h1, h2]

/-- Witness for C3 (amended): type 3, parameter 7 decodes from `3 + 20*7`,
and type 3, parameter -2 encodes to `3 + 20*(-2)`. -/
theorem c3_witness :
    Condition.from_i32 (3 + 20 * 7) = condMk 3 7 ∧
    (condMk 3 (-2)).to_i32 = 3 + 20 * (-2) :=
  ⟨c3_amended_condition_packing_law.1 3 7 (by norm_num) (by norm_num) (by norm_num),
   c3_amended_condition_packing_law.2 3 (-2)⟩

/-- C2: decoding an on-disk header increments the item, action, word, room
and message counts by 1 and passes the other seven integers through; encoding
the resulting header writes back exactly the original twelve integers (the
five counts decremented by 1 again). -/
theorem c2_header_count_adjustment
    (n0 n1 n2 n3 n4 n5 n6 n7 n8 n9 n10 n11 : Int) (l : Location)
    (rest : List Token) :
    parse_header (Token.int n0 l :: Token.int n1 l :: Token.int n2 l ::
        Token.int n3 l :: Token.int n4 l :: Token.int n5 l :: Token.int n6 l ::
        Token.int n7 l :: Token.int n8 l :: Token.int n9 l :: Token.int n10 l ::
        Token.int n11 l :: rest) =
      .ok (⟨n0, n1 + 1, n2 + 1, n3 + 1, n4 + 1, n5, n6, n7, n8, n9, n10 + 1, n11⟩,
        rest) ∧
    write_header ⟨n0, n1 + 1, n2 + 1, n3 + 1, n4 + 1, n5, n6, n7, n8, n9,
        n10 + 1, n11⟩ =
      intLine n0 ++ intLine n1 ++ intLine n2 ++ intLine n3 ++ intLine n4 ++
      intLine n5 ++ intLine n6 ++ intLine n7 ++ intLine n8 ++ intLine n9 ++
      intLine n10 ++ intLine n11 := by
  constructor
  · rfl
  · simp only [write_header, add_sub_cancel_right]

/-- C9: `next_int` and `next_str` always advance the cursor: on a
wrongly-typed head token they fail with the type-mismatch error yet consume
the token (a subsequent pull sees the following token), and on an exhausted
stream they fail with the unexpected-end error. -/
theorem c9_next_ops_always_advance (s : String) (v : Int) (l l2 : Location)
    (rest : List Token) :
    next_int (Token.str s l :: rest) =
      (.error ⟨l, "Expected an integer, found a string"⟩, rest) ∧
    next_str (Token.int v l :: rest) =
      (.error ⟨l, "Expected a string, found an integer"⟩, rest) ∧
    next_int [] = (.error ⟨⟨0, 0⟩, "Unexpected end of stream"⟩, []) ∧
    next_str [] = (.error ⟨⟨0, 0⟩, "Unexpected end of stream"⟩, []) ∧
    next_int ((next_int (Token.str s l :: Token.int v l2 :: rest)).2) =
      (.ok v, rest) ∧
    next_str ((next_str (Token.int v l :: Token.str s l2 :: rest)).2) =
      (.ok s, rest) :=
  ⟨rfl, rfl, rfl, rfl, rfl, rfl⟩

/-- C5 counterexample: on input `-1` the truncated remainder is `-1`, outside
0-19, so `parse_condition` reaches its invalid branch and fails (with the
source's misformatted message) instead of always succeeding. -/
theorem c5_counterexample :
    parse_condition [Token.int (-1) ⟨1, 1⟩] =
      .error ⟨"Invalid condition (type -1, parameter 0"⟩ := rfl

/-- C5 (amended): for every nonnegative integer input the type extracted by
the modulo-20 arithmetic lies in 0-19, so the decoder's invalid branch is
unreachable and condition decoding succeeds (with the value
`Condition::from_i32` would give); for negative inputs the truncated
remainder can be negative and the invalid branch is reachable. -/
theorem c5_amended_nonneg_condition_decode (n : Int) (hn : 0 ≤ n)
    (l : Location) (rest : List Token) :
    0 ≤ n.tmod 20 ∧ n.tmod 20 ≤ 19 ∧
    parse_condition (Token.int n l :: rest) = .ok (Condition.from_i32 n, rest) := by
  have hlo : 0 ≤ n.tmod 20 := Int.tmod_nonneg 20 hn
  have hhi : n.tmod 20 < 20 := Int.tmod_lt_of_pos n (by norm_num)
  refine ⟨hlo, by omega, ?_⟩
  have h20 : n.tmod 20 = 0 ∨ n.tmod 20 = 1 ∨ n.tmod 20 = 2 ∨ n.tmod 20 = 3 ∨
      n.tmod 20 = 4 ∨ n.tmod 20 = 5 ∨ n.tmod 20 = 6 ∨ n.tmod 20 = 7 ∨
      n.tmod 20 = 8 ∨ n.tmod 20 = 9 ∨ n.tmod 20 = 10 ∨ n.tmod 20 = 11 ∨
      n.tmod 20 = 12 ∨ n.tmod 20 = 13 ∨ n.tmod 20 = 14 ∨ n.tmod 20 = 15 ∨
      n.tmod 20 = 16 ∨ n.tmod 20 = 17 ∨ n.tmod 20 = 18 ∨ n.tmod 20 = 19 := by
    omega
  rcases h20 with h|h|h|h|h|h|h|h|h|h|h|h|h|h|h|h|h|h|h|h <;>
    simp [parse_condition, _read_int, next_int, Bind.bind, Except.bind,
      Condition.from_i32, h]

/-- Witness for C5 (amended): input 42 has type 2 and parameter 2, and
decoding succeeds. -/
theorem c5_witness :
    0 ≤ (42 : Int).tmod 20 ∧ (42 : Int).tmod 20 ≤ 19 ∧
    parse_condition [Token.int 42 ⟨1, 1⟩] =
      .ok (Condition.from_i32 42, []) :=
  c5_amended_nonneg_condition_decode 42 (by norm_num) ⟨1, 1⟩ []

/-- C4: for all `a, b ∈ [0,149]`, decoding the packed integer `a*150 + b`
yields the pair `(a, b)` — the unpacking used for an action's verb/noun
integer and for each of its two packed action-type integers — and the
encoding `first*150 + second` is its exact inverse. -/
theorem c4_action_pair_packing_law (a b : Int) (ha : 0 ≤ a) (ha' : a ≤ 149)
    (hb : 0 ≤ b) (hb' : b ≤ 149) :
    decode_action_pair (encode_action_pair a b) = (a, b) ∧
    encode_action_pair (decode_action_pair (a * 150 + b)).1
      (decode_action_pair (a * 150 + b)).2 = a * 150 + b := by
  have hmod : (a * 150 + b).tmod 150 = b := by
    rw [show a * 150 + b = b + 150 * a by ring]
    rw [Int.tmod_eq_emod (by omega) (by norm_num), Int.add_mul_emod_self_left]
    exact Int.emod_eq_of_lt hb (by omega)
  have hdiv : (a * 150 + b).tdiv 150 = a := by
    rw [show a * 150 + b = b + 150 * a by ring]
    rw [Int.tdiv_eq_ediv (by omega) (by norm_num),
      Int.add_mul_ediv_left b a (by norm_num : (150:Int) ≠ 0),
      Int.ediv_eq_zero_of_lt hb (by omega)]
    omega
  unfold decode_action_pair encode_action_pair
  rw [hmod, hdiv]
  exact ⟨rfl, by ring⟩

/-- Witness for C4: verb index 7, noun index 3 pack to 1053 and unpack
back to `(7, 3)`. -/
theorem c4_witness :
    decode_action_pair (encode_action_pair 7 3) = (7, 3) ∧
    encode_action_pair (decode_action_pair (7 * 150 + 3)).1
      (decode_action_pair (7 * 150 + 3)).2 = 7 * 150 + 3 :=
  c4_action_pair_packing_law 7 3 (by norm_num) (by norm_num) (by norm_num)
    (by norm_num)

/-- C7: when the input ends while the machine is in a state other than
`Init` (mid-sign, mid-number, mid-string or mid-escape), `Stream::new` still
returns success, and the trailing partial token is silently dropped: the
result is exactly the tokens emitted before end of input. -/
theorem c7_eof_mid_token_dropped (data : List Char) (st : TokState)
    (hrun : tokRun data = .ok st) (hst : st.state ≠ State.Init) :
    Stream.new data = .ok st.tokens := by
  unfold Stream.new
  rw [hrun]
  rfl

/-- Witness for C7: the input `-5 "ab` ends inside a string literal; the
machine ends in the `Quote` state with accumulator `ab`, tokenization
succeeds and only the completed integer token is returned. -/
theorem c7_witness :
    tokRun ('-' :: '5' :: ' ' :: '\"' :: 'a' :: 'b' :: []) =
      .ok ⟨State.Quote, "ab", [Token.int (-5) ⟨1, 2⟩], ⟨1, 7⟩, ⟨1, 5⟩⟩ ∧
    State.Quote ≠ State.Init ∧
    Stream.new ('-' :: '5' :: ' ' :: '\"' :: 'a' :: 'b' :: []) =
      .ok [Token.int (-5) ⟨1, 2⟩] := by
  refine ⟨rfl, by decide, ?_⟩
  exact c7_eof_mid_token_dropped ('-' :: '5' :: ' ' :: '\"' :: 'a' :: 'b' :: [])
    ⟨State.Quote, "ab", [Token.int (-5) ⟨1, 2⟩], ⟨1, 7⟩, ⟨1, 5⟩⟩ rfl (by decide)

lemma digit_ne_newline (ch : Char) (h : isAsciiDigit ch = true) : ¬(ch = '\n') := by
  intro e
  subst e
  exact absurd h (by decide)

lemma advanceLoc_of_ne_newline (l : Location) (ch : Char) (h : ¬(ch = '\n')) :
    advanceLoc l ch = bumpLoc l := by
  unfold advanceLoc bumpLoc
  rw [if_neg h]

lemma tokStep_rel (s s' : TokState) (ch : Char) (h : TokRel s s')
    (t : TokState) (ht : tokStep s ch = .ok t) :
    ∃ t', specTokStep s' ch = .ok t' ∧ TokRel t t' := by
  obtain ⟨sst, sacc, stoks, scur, stl⟩ := s
  obtain ⟨pst, pacc, ptoks, pcur, ptl⟩ := s'
  unfold TokRel at h
  dsimp only at h
  obtain ⟨h1, h2, h3, h4, h5⟩ := h
  subst h1
  subst h2
  subst h3
  subst h4
  cases sst
  case Init =>
    simp only [tokStep, specTokStep] at ht ⊢
    by_cases hw : isAsciiWhitespace ch = true
    · rw [if_pos hw] at ht ⊢
      obtain rfl := Except.ok.inj ht
      refine ⟨_, rfl, ?_⟩
      unfold TokRel
      exact ⟨rfl, rfl, rfl, rfl, fun hne => absurd rfl hne⟩
    · rw [if_neg hw] at ht ⊢
      by_cases hm : ch = '-'
      · rw [if_pos hm] at ht ⊢
        obtain rfl := Except.ok.inj ht
        refine ⟨_, rfl, ?_⟩
        unfold TokRel
        refine ⟨rfl, rfl, rfl, rfl, fun _ => ?_⟩
        rw [hm]
        rfl
      · rw [if_neg hm] at ht ⊢
        by_cases hd : isAsciiDigit ch = true
        · rw [if_pos hd] at ht ⊢
          obtain rfl := Except.ok.inj ht
          refine ⟨_, rfl, ?_⟩
          unfold TokRel
          exact ⟨rfl, rfl, rfl, rfl,
            fun _ => advanceLoc_of_ne_newline scur ch (digit_ne_newline ch hd)⟩
        · rw [if_neg hd] at ht ⊢
          by_cases hq : ch = '\"'
          · rw [if_pos hq] at ht ⊢
            obtain rfl := Except.ok.inj ht
            refine ⟨_, rfl, ?_⟩
            unfold TokRel
            refine ⟨rfl, rfl, rfl, rfl, fun _ => ?_⟩
            rw [hq]
            rfl
          · rw [if_neg hq] at ht
            exact Except.noConfusion ht
  case Sign =>
    simp only [tokStep, specTokStep] at ht ⊢
    by_cases hd : isAsciiDigit ch = true
    · rw [if_pos hd] at ht ⊢
      obtain rfl := Except.ok.inj ht
      refine ⟨_, rfl, ?_⟩
      unfold TokRel
      exact ⟨rfl, rfl, rfl, rfl, fun _ => h5 (by decide)⟩
    · rw [if_neg hd] at ht
      exact Except.noConfusion ht
  case Num =>
    simp only [tokStep, specTokStep] at ht ⊢
    by_cases hw : isAsciiWhitespace ch = true
    · rw [if_pos hw] at ht ⊢
      cases hp : parse_i32 sacc with
      | none =>
          rw [hp] at ht
          dsimp only at ht
          exact Except.noConfusion ht
      | some v =>
          rw [hp] at ht
          dsimp only at ht
          obtain rfl := Except.ok.inj ht
          refine ⟨_, rfl, ?_⟩
          unfold TokRel
          refine ⟨rfl, rfl, rfl, ?_, fun hne => absurd rfl hne⟩
          rw [List.map_append, h5 (by decide)]
          rfl
    · rw [if_neg hw] at ht ⊢
      by_cases hd : isAsciiDigit ch = true
      · rw [if_pos hd] at ht ⊢
        obtain rfl := Except.ok.inj ht
        refine ⟨_, rfl, ?_⟩
        unfold TokRel
        exact ⟨rfl, rfl, rfl, rfl, fun _ => h5 (by decide)⟩
      · rw [if_neg hd] at ht
        exact Except.noConfusion ht
  case Quote =>
    simp only [tokStep, specTokStep] at ht ⊢
    by_cases hb : ch = '\\'
    · rw [if_pos hb] at ht ⊢
      obtain rfl := Except.ok.inj ht
      refine ⟨_, rfl, ?_⟩
      unfold TokRel
      exact ⟨rfl, rfl, rfl, rfl, fun _ => h5 (by decide)⟩
    · rw [if_neg hb] at ht ⊢
      by_cases hq : ch = '\"'
      · rw [if_pos hq] at ht ⊢
        obtain rfl := Except.ok.inj ht
        refine ⟨_, rfl, ?_⟩
        unfold TokRel
        refine ⟨rfl, rfl, rfl, ?_, fun hne => absurd rfl hne⟩
        rw [List.map_append, h5 (by decide)]
        rfl
      · rw [if_neg hq] at ht ⊢
        obtain rfl := Except.ok.inj ht
        refine ⟨_, rfl, ?_⟩
        unfold TokRel
        exact ⟨rfl, rfl, rfl, rfl, fun _ => h5 (by decide)⟩
  case Escape =>
    simp only [tokStep, specTokStep] at ht ⊢
    obtain rfl := Except.ok.inj ht
    refine ⟨_, rfl, ?_⟩
    unfold TokRel
    exact ⟨rfl, rfl, rfl, rfl, fun _ => h5 (by decide)⟩

lemma tokRun_rel_aux (data : List Char) :
    ∀ s s' t, TokRel s s' → List.foldlM tokStep s data = .ok t →
      ∃ t', List.foldlM specTokStep s' data = .ok t' ∧ TokRel t t' := by
  induction data with
  | nil =>
      intro s s' t h ht
      simp only [List.foldlM_nil] at ht
      obtain rfl := Except.ok.inj ht
      exact ⟨s', by simp only [List.foldlM_nil]; rfl, h⟩
  | cons ch rest ih =>
      intro s s' t h ht
      rw [List.foldlM_cons] at ht
      cases hstep : tokStep s ch with
      | error e =>
          rw [hstep] at ht
          simp only [Bind.bind, Except.bind] at ht
          exact Except.noConfusion ht
      | ok s1 =>
          rw [hstep] at ht
          simp only [Bind.bind, Except.bind] at ht
          obtain ⟨s1', hs1', hrel1⟩ := tokStep_rel s s' ch h s1 hstep
          obtain ⟨t', ht', hrelt⟩ := ih s1 s1' t hrel1 ht
          refine ⟨t', ?_, hrelt⟩
          rw [List.foldlM_cons, hs1']
          simpa only [Bind.bind, Except.bind] using ht'

/-- C6 (amended): every token emitted by the source tokenizer carries the
line of its first character, but a column one greater than the 1-based
column of that character, because `current_loc` is advanced past the byte
before `token_loc` is recorded: the source run is the spec-position run with
every token location shifted right by one column. -/
theorem c6_amended_token_locations_shifted (data : List Char) (st : TokState)
    (hrun : tokRun data = .ok st) :
    ∃ st', specTokRun data = .ok st' ∧ st.tokens = st'.tokens.map bumpTok := by
  obtain ⟨st', h1, h2⟩ := tokRun_rel_aux data tokInit tokInit
    st (by unfold TokRel; exact ⟨rfl, rfl, rfl, rfl, fun hne => absurd rfl hne⟩) hrun
  exact ⟨st', h1, h2.2.2.2.1⟩

/-- C6 counterexample: tokenizing the two bytes `5 ` yields one integer
token whose recorded location is `{line 1, col 2}`, not the claimed
`{line 1, col 1}`, even though its first character is the first byte of the
file. -/
theorem c6_counterexample :
    Stream.new ('5' :: ' ' :: []) = .ok [Token.int 5 ⟨1, 2⟩] ∧
    (⟨1, 2⟩ : Location) ≠ ⟨1, 1⟩ := ⟨rfl, by decide⟩

/-- Witness for C6 (amended): on input `5 ` the source tokenizer ends with
one token at column 2, the spec-position run records it at column 1, and the
former is the latter shifted right by one column. -/
theorem c6_witness :
    ∃ st', specTokRun ('5' :: ' ' :: []) = .ok st' ∧
      (⟨State.Init, "", [Token.int 5 ⟨1, 2⟩], ⟨1, 3⟩, ⟨1, 2⟩⟩ : TokState).tokens =
        st'.tokens.map bumpTok :=
  c6_amended_token_locations_shifted ('5' :: ' ' :: [])
    ⟨State.Init, "", [Token.int 5 ⟨1, 2⟩], ⟨1, 3⟩, ⟨1, 2⟩⟩ rfl

set_option maxRecDepth 10000 in
/-- C1, on the modelled intent: the source crate does not compile (the type
errors in parse_action and write_action recorded above), so the claim fails
on the code as written; this theorem shows that with those two spots
modelled from the spec, decoding the sample canonical game file and
re-encoding it reproduces the original bytes exactly. -/
theorem c1_roundtrip_of_modelled_intent :
    load_then_write sampleGameFile.data = some sampleGameFile := by decide
